import Mathlib

/-!
Shallow embedding of src/great-lakes-ice-site/server.py (the NOAA
Great Lakes ice proxy pipeline): the secure fetcher with its
certificate-trust fallback, the tabular decoder, the history filter and
the fallback orchestrator, together with proofs about the frozen claims.

Conventions of the embedding:
- JSON values parsed by json.loads are the inductive JVal; JSON object
  keys are strings (JSON guarantees this), duplicate keys collapse to
  the last occurrence exactly as json.loads does.
- Python dicts built by the row comprehension in _extract_rows may have
  arbitrary hashable keys, so Record keys are JVal; list and dict
  values are unhashable and make the comprehension raise TypeError.
- Python datetimes are PyDatetime: an instant (seconds as Int, a
  timedelta day being 86400 seconds) plus an awareness flag; comparing
  an offset-naive datetime with an offset-aware one raises TypeError,
  which PyError records.
- Host-library primitives that the source calls (datetime.fromisoformat,
  float() on a string, int() on a string, strftime, the network itself)
  are explicit functional parameters, collected in HistoryEnv for the
  history handler; theorems quantify over them.
- Exceptions are modelled with Except; PyError holds the exception
  kinds that the orchestrator handlers do NOT catch.
-/

/-- Model of a JSON value as returned by json.loads. Object keys are
strings; objects are association lists in insertion order. -/
inductive JVal where
  | null : JVal
  | bool (b : Bool) : JVal
  | num (q : Rat) : JVal
  | str (s : String) : JVal
  | arr (xs : List JVal) : JVal
  | obj (fields : List (String × JVal)) : JVal

/-- Exception kinds raised by the pipeline that the handlers in
server.py do not catch (their except tuples list HTTPError, URLError,
TimeoutError, RuntimeError, ssl.SSLError and json.JSONDecodeError
only): the TypeError of a naive-aware datetime comparison, the
AttributeError of payload.get on a non-dict, and the
UnicodeDecodeError of payload.decode("utf-8") at line 69 on a
non-UTF-8 body (a ValueError subclass, but not a JSONDecodeError). -/
inductive PyError where
  | typeError : PyError
  | attributeError : PyError
  | unicodeDecodeError : PyError
deriving DecidableEq, Repr

/-- Lookup in a parsed JSON object (a Python dict built by json.loads):
the last occurrence of a duplicated key wins, as in json.loads. -/
def jsonGet (fields : List (String × JVal)) (k : String) : Option JVal :=
  fields.foldl (fun acc p => if p.1 = k then some p.2 else acc) none

/-- Equality of Python dict keys, restricted to the hashable JSON
values that can actually become keys in this program (None, bool,
numbers, strings); containers are rejected as unhashable before any
insertion. Python additionally identifies True with 1 and 1 with 1.0
under hashing; numbers are already identified because JVal.num is a
rational, and a bool key never meets a numeric key in this pipeline. -/
def keyEq : JVal → JVal → Bool
  | .null, .null => true
  | .bool a, .bool b => a == b
  | .num a, .num b => a == b
  | .str a, .str b => a == b
  | _, _ => false

/-- Python dict keys must be hashable: lists and dicts are not. -/
def hashableKey : JVal → Bool
  | .arr _ => false
  | .obj _ => false
  | _ => true

/-- Record: a Python dict produced by the row comprehension in
_extract_rows, keys in first-insertion order. -/
abbrev Record := List (JVal × JVal)

/-- Python dict insertion: an existing key keeps its position and gets
the new value, a new key is appended. -/
def dictInsert (d : Record) (k v : JVal) : Record :=
  if d.any (fun p => keyEq p.1 k) then
    d.map (fun p => if keyEq p.1 k then (p.1, v) else p)
  else d ++ [(k, v)]

/-- Python dict.get on a Record (keys are unique by construction). -/
def dictGet (d : Record) (k : JVal) : Option JVal :=
  (d.find? (fun p => keyEq p.1 k)).map (fun p => p.2)

/-! ## Character-level models of the Python string primitives used by
the source (str.split, str.replace, str.startswith, the "in" operator).
They are written by structural recursion on the character list so that
the kernel can evaluate them on concrete inputs. -/

/-- leadsWith pat cs is true when pat is an initial segment of cs,
modelling str.startswith. -/
def leadsWith : List Char → List Char → Bool
  | [], _ => true
  | _ :: _, [] => false
  | p :: ps, c :: cs => p == c && leadsWith ps cs

/-- Split on a single-character separator, modelling str.split(sep)
for the one-character separators the source uses ("&"). -/
def splitOnChar (sep : Char) : List Char → List (List Char)
  | [] => [[]]
  | c :: rest =>
    if c = sep then [] :: splitOnChar sep rest
    else
      match splitOnChar sep rest with
      | [] => [[c]]
      | g :: gs => (c :: g) :: gs

/-- Everything after the first occurrence of sep, or none when sep
does not occur: str.split(sep, 1)[1] guarded by the "in" test. -/
def afterChar (sep : Char) : List Char → Option (List Char)
  | [] => none
  | c :: rest => if c = sep then some rest else afterChar sep rest

/-- Replace every occurrence of a one-character pattern, modelling
str.replace("Z", "+00:00"). -/
def replaceChar (pat : Char) (rep : List Char) : List Char → List Char
  | [] => []
  | c :: rest =>
    if c = pat then rep ++ replaceChar pat rep rest
    else c :: replaceChar pat rep rest

/-- Substring containment, modelling the Python "in" operator on
strings. -/
def containsSub (pat : List Char) : List Char → Bool
  | [] => pat.isEmpty
  | c :: rest => leadsWith pat (c :: rest) || containsSub pat rest

/-! ## Endpoint constants (lines 17-25 of server.py) -/

def NOAA_BASE_ENDPOINT : String :=
  "https://apps.glerl.noaa.gov/erddap/tabledap/glerlIce.json?time,Superior,Michigan,Huron,Erie,Ontario,GL_Total"

def NOAA_LATEST_ENDPOINTS : List String :=
  [NOAA_BASE_ENDPOINT ++ "&orderByMax(%22time%22)", NOAA_BASE_ENDPOINT]

/-! ## Secure fetcher (_is_certificate_error, _fetch_url) -/

/-- Model of an exception caught by the try in _fetch_url, which
catches exactly ssl.SSLError, ssl.SSLCertVerificationError and
urllib.error.URLError (the transport exceptions urlopen raises).
isSSLError models isinstance(exc, (ssl.SSLError, ssl.SSLCertVerificationError)),
reasonIsSSLError the same test on getattr(exc, "reason", None), and
text models str(exc). -/
structure PyExc where
  isSSLError : Bool
  reasonIsSSLError : Bool
  text : String
deriving DecidableEq, Repr

/-- Substring containment, modelling the Python expression
"CERTIFICATE_VERIFY_FAILED" in str(exc). -/
def containsMarker (s marker : String) : Bool :=
  containsSub marker.toList s.toList

/-- Embedding of _is_certificate_error (lines 28-38). -/
def isCertificateError (exc : PyExc) : Bool :=
  if exc.isSSLError then true
  else if exc.reasonIsSSLError then true
  else if containsMarker exc.text "CERTIFICATE_VERIFY_FAILED" then true
  else false

/-- TLS trust mode used for an attempt: the strict default context or
the unverified fallback context. -/
inductive TrustMode where
  | strict : TrustMode
  | insecure : TrustMode
deriving DecidableEq, Repr

/-- Outcome of one urlopen attempt: a transport-level response with the
status attribute and the bytes read, or a raised transport exception. -/
inductive FetchResult where
  | ok (status : Int) (payload : List Nat) : FetchResult
  | err (e : PyExc) : FetchResult

/-- The try/except block of _fetch_url (lines 45-57): one strict
attempt; if it raises and _is_certificate_error classifies the
exception, exactly one insecure retry of the same request; any other
exception is re-raised; an exception of the insecure retry propagates.
The second component is the trace of attempts made, in order. -/
def fetchAttempts (attempt : TrustMode → FetchResult) :
    Except PyExc (Int × List Nat) × List TrustMode :=
  match attempt .strict with
  | .ok status payload => (.ok (status, payload), [.strict])
  | .err e =>
    if isCertificateError e then
      match attempt .insecure with
      | .ok status payload => (.ok (status, payload), [.strict, .insecure])
      | .err e2 => (.error e2, [.strict, .insecure])
    else (.error e, [.strict])

/-- Terminal failure of _fetch_url: a propagated transport exception or
a raised RuntimeError (the HTTP-status and empty-body checks). -/
inductive FetchErr where
  | exc (e : PyExc) : FetchErr
  | runtime (msg : String) : FetchErr

/-- Python str() of a terminal fetch failure, as interpolated into the
error detail strings of the handlers. -/
def errText : FetchErr → String
  | .exc e => e.text
  | .runtime msg => msg

/-- Embedding of _fetch_url (lines 41-64): attempts per fetchAttempts,
then raises RuntimeError("HTTP status") when the status is outside
[200, 300), RuntimeError("Empty response body") when the body is empty,
and otherwise returns the raw body bytes. -/
def fetchUrl (attempt : TrustMode → FetchResult) : Except FetchErr (List Nat) :=
  match (fetchAttempts attempt).1 with
  | .error e => .error (.exc e)
  | .ok (status, payload) =>
    if ¬(200 ≤ status ∧ status < 300) then
      .error (.runtime ("HTTP " ++ toString status))
    else if payload.isEmpty then
      .error (.runtime "Empty response body")
    else .ok payload

/-! ## Latest handler (_handle_ice_latest, _send_error_json) -/

/-- Outcome of _handle_ice_latest: a 200 response carrying the fetched
bytes verbatim, or the 502 error JSON written by _send_error_json. -/
inductive LatestResult where
  | ok (payload : List Nat) : LatestResult
  | errorReport (error : String) (details : List String) : LatestResult

/-- The loop of _handle_ice_latest (lines 178-191): try each endpoint
in order, return the first successful payload, and record
"endpoint: str(exc)" for each failure; if all endpoints fail,
_send_error_json produces the aggregated report. -/
def latestGo (fetch : String → Except FetchErr (List Nat)) :
    List String → LatestResult
  | [] => .errorReport "Unable to fetch NOAA data." []
  | ep :: rest =>
    match fetch ep with
    | .ok payload => .ok payload
    | .error e =>
      match latestGo fetch rest with
      | .ok payload => .ok payload
      | .errorReport err details =>
        .errorReport err ((ep ++ ": " ++ errText e) :: details)

/-- Embedding of _handle_ice_latest (lines 175-191). -/
def handleIceLatest (fetch : String → Except FetchErr (List Nat)) : LatestResult :=
  latestGo fetch NOAA_LATEST_ENDPOINTS

/-! ## Tabular decoder (_extract_rows, lines 88-105) -/

/-- One row of the dict comprehension in _extract_rows (line 102):
iterate enumerate(column_names), keep only indices below the row
length, hash the column name as a dict key (lists and dicts are
unhashable and raise TypeError), and insert positionally. -/
def rowDictGo (rawRow : List JVal) : List (Nat × JVal) → Record → Except PyError Record
  | [], acc => .ok acc
  | (idx, name) :: rest, acc =>
    if h : idx < rawRow.length then
      if hashableKey name then
        rowDictGo rawRow rest (dictInsert acc name (rawRow.get ⟨idx, h⟩))
      else .error .typeError
    else rowDictGo rawRow rest acc

/-- The dict comprehension of line 102 for one raw row. -/
def rowDict (columnNames rawRow : List JVal) : Except PyError Record :=
  rowDictGo rawRow columnNames.enum []

/-- The row loop of _extract_rows (lines 99-103): entries of rows that
are not lists are skipped; list entries become Records. -/
def extractGo (columnNames : List JVal) : List JVal → Except PyError (List Record)
  | [] => .ok []
  | .arr rawRow :: rest => do
    let r ← rowDict columnNames rawRow
    let rs ← extractGo columnNames rest
    return r :: rs
  | _ :: rest => extractGo columnNames rest

/-- Embedding of _extract_rows (lines 88-105). The payload is whatever
json.loads produced; a non-dict top level makes payload.get raise
AttributeError (the function is annotated dict but never checks).
A missing or non-dict table, or a non-list columnNames or rows, gives
the empty list. -/
def extractRows (payload : JVal) : Except PyError (List Record) :=
  match payload with
  | .obj fields =>
    match jsonGet fields "table" with
    | some (.obj tfields) =>
      match jsonGet tfields "columnNames", jsonGet tfields "rows" with
      | some (.arr columnNames), some (.arr rows) => extractGo columnNames rows
      | _, _ => .ok []
    | _ => .ok []
  | _ => .error .attributeError

/-! ## Numeric coercion and time parsing (_to_float, _parse_time) -/

/-- Embedding of _to_float (lines 78-85), with the parse of the host
float() on strings as the parameter parseFloat. Python bools are int
instances, so isinstance(value, (int, float)) passes values of the
bool and number variants straight through; for the remaining variants
float(str(value)) is attempted: str of None, of a list or of a dict is
"None", "[...]" or "{...}", never a float literal, so those variants
coerce to none. -/
def toFloat (parseFloat : String → Option Rat) : JVal → Option Rat
  | .num q => some q
  | .bool b => some (if b then 1 else 0)
  | .str s => parseFloat s
  | .null => none
  | .arr _ => none
  | .obj _ => none

/-- Model of a Python datetime: an instant in seconds (one
timedelta day = 86400 seconds) and whether the datetime carries a UTC
offset. datetime.fromisoformat returns an offset-naive datetime when
the text has no offset suffix; comparing it against the offset-aware
cutoff raises TypeError. -/
structure PyDatetime where
  aware : Bool
  instant : Int
deriving DecidableEq, Repr

/-- Embedding of _parse_time (lines 73-75): replace every "Z" with
"+00:00", then call the host datetime.fromisoformat (the parameter
fromISO; returning none models a raised ValueError). -/
def parseTime (fromISO : String → Option PyDatetime) (value : String) : Option PyDatetime :=
  fromISO ⟨replaceChar 'Z' "+00:00".toList value.toList⟩

/-! ## History filter (_trim_history_rows, lines 114-141) -/

/-- Python str() of a JSON value, used on row.get("time", "") at line
122. Strings are returned verbatim. The renderings of the remaining
variants are stand-ins (Python prints None as "None", floats with a
decimal point, containers with brackets); no theorem depends on them
because the ISO parser applied next is universally quantified. -/
def pyStr : JVal → String
  | .str s => s
  | .null => "None"
  | .bool true => "True"
  | .bool false => "False"
  | .num q => toString q
  | .arr _ => "[...]"
  | .obj _ => "\x7b...\x7d"

/-- str(row.get("time", "")) of line 122. -/
def timeTextOf (row : Record) : String :=
  match dictGet row (.str "time") with
  | some v => pyStr v
  | none => ""

/-- Structure of the dict literal built at lines 130-138: exactly the
time text plus the six coerced lake fields. -/
structure HistoryPoint where
  time : String
  Superior : Option Rat
  Michigan : Option Rat
  Huron : Option Rat
  Erie : Option Rat
  Ontario : Option Rat
  GL_Total : Option Rat
deriving DecidableEq, Repr

/-- _to_float(row.get(key)) for one lake column: a missing key gives
Python None, and _to_float(None) is None. -/
def toFloatGet (parseFloat : String → Option Rat) (row : Record) (key : String) : Option Rat :=
  match dictGet row (.str key) with
  | some v => toFloat parseFloat v
  | none => none

/-- The HistoryPoint built for one retained record (lines 129-139). -/
def projectRow (parseFloat : String → Option Rat) (row : Record) : HistoryPoint :=
  ⟨timeTextOf row,
    toFloatGet parseFloat row "Superior",
    toFloatGet parseFloat row "Michigan",
    toFloatGet parseFloat row "Huron",
    toFloatGet parseFloat row "Erie",
    toFloatGet parseFloat row "Ontario",
    toFloatGet parseFloat row "GL_Total"⟩

/-- The loop of _trim_history_rows (lines 121-139): a record whose time
text does not parse is dropped (the ValueError of _parse_time is
caught) and the loop continues; a parsed offset-naive stamp raises
TypeError at the comparison stamp >= cutoff (the cutoff is always
offset-aware), and that TypeError is caught nowhere; otherwise the
record is kept exactly when its instant is at least the cutoff. -/
def trimGo (fromISO : String → Option PyDatetime) (parseFloat : String → Option Rat)
    (cutoff : Int) : List Record → Except PyError (List HistoryPoint)
  | [] => .ok []
  | row :: rest =>
    match parseTime fromISO (timeTextOf row) with
    | none => trimGo fromISO parseFloat cutoff rest
    | some stamp =>
      if stamp.aware = false then .error .typeError
      else if cutoff ≤ stamp.instant then
        (trimGo fromISO parseFloat cutoff rest).map
          (fun tl => projectRow parseFloat row :: tl)
      else trimGo fromISO parseFloat cutoff rest

/-- Embedding of _trim_history_rows (lines 114-141): now is the value
of datetime.now(timezone.utc) in seconds, the cutoff subtracts
timedelta(days=days). -/
def trimHistoryRows (fromISO : String → Option PyDatetime)
    (parseFloat : String → Option Rat) (now days : Int) (rows : List Record) :
    Except PyError (List HistoryPoint) :=
  if rows.isEmpty then .ok []
  else trimGo fromISO parseFloat (now - days * 86400) rows

/-! ## History day-window parsing (_history_days_from_query, lines 158-173) -/

/-- The query-string part of self.path: everything after the first "?"
(self.path.split("?", 1)), empty when there is no "?". -/
def queryOfPath (path : String) : String :=
  match afterChar '?' path.toList with
  | none => ""
  | some cs => ⟨cs⟩

/-- The loop of _history_days_from_query (lines 164-171): scan the
"&"-separated pairs, and at the FIRST pair starting with "days=" take
int() of the text after the first "=" (a ValueError gives 90) and
break; with no such pair the initial 90 stands. pyInt is the host
int() on strings, returning none for a ValueError. -/
def daysLoop (pyInt : String → Option Int) : List String → Int
  | [] => 90
  | pair :: rest =>
    if leadsWith "days=".toList pair.toList then
      match pyInt ⟨pair.toList.drop 5⟩ with
      | some n => n
      | none => 90
    else daysLoop pyInt rest

/-- Embedding of _history_days_from_query (lines 158-173). -/
def historyDaysFromQuery (pyInt : String → Option Int) (path : String) : Int :=
  max 14 (min 365
    (daysLoop pyInt ((splitOnChar '&' (queryOfPath path).toList).map
      (fun cs => (⟨cs⟩ : String)))))

/-- Restatement of the SPEC wording for the effective day window, used
for the refinement part of claim C3: the clamp into [14, 365] of the
first days= parameter value, with 90 before clamping when the
parameter is absent or unparsable. -/
def specEffectiveDays (pyInt : String → Option Int) (query : String) : Int :=
  let raw :=
    match ((splitOnChar '&' query.toList).map (fun cs => (⟨cs⟩ : String))).findSome?
        (fun pair =>
          if leadsWith "days=".toList pair.toList then
            some ((⟨pair.toList.drop 5⟩ : String)) else none) with
    | none => 90
    | some v => (pyInt v).getD 90
  max 14 (min 365 raw)

/-- Test instance of the host int() used for the concrete scenarios of
claim C3: parses an optionally negated run of decimal digits, agreeing
with Python int() on such strings. -/
def digitsToNatGo : List Char → Nat → Option Nat
  | [], acc => some acc
  | c :: cs, acc =>
    if c.isDigit then digitsToNatGo cs (10 * acc + (c.toNat - 48)) else none

/-- Decimal integer parser used as a concrete stand-in for Python
int() in scenario conjuncts and witnesses. -/
def parseDecInt (s : String) : Option Int :=
  match s.toList with
  | [] => none
  | '-' :: ds =>
    match ds with
    | [] => none
    | _ => (digitsToNatGo ds 0).map (fun n => -(n : Int))
  | ds => (digitsToNatGo ds 0).map (fun n => (n : Int))

/-! ## History handler (_history_endpoint, _handle_ice_history) -/

/-- Failure of one history endpoint attempt: either an exception the
except tuple of line 222 catches, recorded with its message, or an
exception it does not catch, which escapes the handler. -/
inductive StepErr where
  | caught (msg : String) : StepErr
  | uncaught (e : PyError) : StepErr

/-- Host-library and network primitives that _handle_ice_history calls,
made explicit: fetchJson is _fetch_json (lines 67-70) per endpoint,
failing either with a caught kind (the transport and RuntimeError
failures of _fetch_url and the json.JSONDecodeError of json.loads,
recorded with the message str(exc)) or with the uncaught
UnicodeDecodeError that payload.decode("utf-8") raises on a non-UTF-8
body; fromISO is datetime.fromisoformat; parseFloat and pyInt are
float() and int() on strings; fmtDay and fmtNow are the two strftime
formats of lines 110 and 211. -/
structure HistoryEnv where
  fetchJson : String → Except StepErr JVal
  fromISO : String → Option PyDatetime
  parseFloat : String → Option Rat
  pyInt : String → Option Int
  fmtDay : Int → String
  fmtNow : Int → String

/-- Embedding of _history_endpoint (lines 108-111): the base query plus
a time lower bound of now minus (days + 7) days, rendered by the
midnight-truncating strftime. -/
def historyEndpoint (fmtDay : Int → String) (now : Int) (days : Int) : String :=
  NOAA_BASE_ENDPOINT ++ "&time%3E=" ++ fmtDay (now - (days + 7) * 86400)

/-- The body of the endpoint loop of _handle_ice_history (lines
200-208): fetch and decode JSON, extract rows, raise
RuntimeError("No rows returned") on an empty extraction, trim, raise
RuntimeError("No rows in requested date range") on an empty trim.
The transport failures, the JSONDecodeError and the two RuntimeErrors
are of caught kinds; the UnicodeDecodeError of _fetch_json, the
AttributeError of _extract_rows and the TypeError of
_trim_history_rows are not in the except tuple. -/
def historyStep (env : HistoryEnv) (now days : Int) (ep : String) :
    Except StepErr (List HistoryPoint) :=
  match env.fetchJson ep with
  | .error se => .error se
  | .ok payload =>
    match extractRows payload with
    | .error pe => .error (.uncaught pe)
    | .ok rows =>
      if rows.isEmpty then .error (.caught "No rows returned")
      else
        match trimHistoryRows env.fromISO env.parseFloat now days rows with
        | .error pe => .error (.uncaught pe)
        | .ok trimmed =>
          if trimmed.isEmpty then .error (.caught "No rows in requested date range")
          else .ok trimmed

/-- The response payload of lines 210-214. -/
structure HistoryResponse where
  generated_at : String
  days : Int
  rows : List HistoryPoint
deriving DecidableEq, Repr

/-- Outcome of _handle_ice_history once it responds: the 200 history
JSON or the 502 error JSON of _send_error_json. -/
inductive HistoryOutcome where
  | success (r : HistoryResponse) : HistoryOutcome
  | errorReport (error : String) (details : List String) : HistoryOutcome
deriving DecidableEq, Repr

/-- The endpoint loop of _handle_ice_history (lines 199-225): first
success wins, caught failures are recorded as "endpoint: message" in
trial order, an uncaught exception escapes the handler at once. -/
def historyGo (env : HistoryEnv) (now days : Int) :
    List String → Except PyError HistoryOutcome
  | [] => .ok (.errorReport "Unable to fetch NOAA data." [])
  | ep :: rest =>
    match historyStep env now days ep with
    | .ok trimmed => .ok (.success ⟨env.fmtNow now, days, trimmed⟩)
    | .error (.uncaught pe) => .error pe
    | .error (.caught msg) =>
      match historyGo env now days rest with
      | .error pe => .error pe
      | .ok (.success r) => .ok (.success r)
      | .ok (.errorReport er details) =>
        .ok (.errorReport er ((ep ++ ": " ++ msg) :: details))

/-- Embedding of _handle_ice_history (lines 193-225): clamp the
requested days from the query, build the two candidate endpoints
(time-filtered first, bare base second), run the loop. The single
parameter now stands for the datetime.now(timezone.utc) readings of
one request. -/
def handleIceHistory (env : HistoryEnv) (now : Int) (path : String) :
    Except PyError HistoryOutcome :=
  let days := historyDaysFromQuery env.pyInt path
  historyGo env now days [historyEndpoint env.fmtDay now days, NOAA_BASE_ENDPOINT]

/-- Decode-then-filter composition of one history endpoint attempt,
used by claim C10: _extract_rows followed by _trim_history_rows on the
same parsed payload. -/
def decodeAndTrim (fromISO : String → Option PyDatetime)
    (parseFloat : String → Option Rat) (payload : JVal) (days now : Int) :
    Except PyError (List HistoryPoint) := do
  let rows ← extractRows payload
  trimHistoryRows fromISO parseFloat now days rows

/-! ## Theorems about the claims -/

/-- Claim C2: _fetch_url retries exactly once against the same
endpoint with the unverified TLS context if and only if the strict
attempt raises an exception that _is_certificate_error classifies as a
certificate-trust failure (it is an SSL error, or its reason is, or
str(exc) contains "CERTIFICATE_VERIFY_FAILED"); a non-certificate
failure is re-raised without retry, and a failure of the insecure
retry propagates with no further attempt (the trace never exceeds the
two attempts strict, insecure). -/
theorem fetch_retries_iff_certificate_error (attempt : TrustMode → FetchResult) :
    ((fetchAttempts attempt).2 = [TrustMode.strict, TrustMode.insecure] ↔
      ∃ e, attempt .strict = .err e ∧ isCertificateError e = true) ∧
    (∀ e, attempt .strict = .err e → isCertificateError e = false →
      (fetchAttempts attempt).1 = .error e ∧
        (fetchAttempts attempt).2 = [TrustMode.strict]) ∧
    (∀ e s p, attempt .strict = .err e → isCertificateError e = true →
      attempt .insecure = .ok s p → (fetchAttempts attempt).1 = .ok (s, p)) ∧
    (∀ e e2, attempt .strict = .err e → isCertificateError e = true →
      attempt .insecure = .err e2 →
      (fetchAttempts attempt).1 = .error e2 ∧
        (fetchAttempts attempt).2 = [TrustMode.strict, TrustMode.insecure]) := by
  refine ⟨⟨?_, ?_⟩, ?_, ?_, ?_⟩
  · intro h
    cases ha : attempt .strict with
    | ok s p => simp [fetchAttempts, ha] at h
    | err e =>
      by_cases hc : isCertificateError e = true
      · exact ⟨e, by simp [ha], hc⟩
      · simp [fetchAttempts, ha, hc] at h
  · rintro ⟨e, ha, hc⟩
    cases hi : attempt .insecure <;> simp [fetchAttempts, ha, hc, hi]
  · intro e ha hc
    refine ⟨?_, ?_⟩ <;> simp [fetchAttempts, ha, hc]
  · intro e s p ha hc hi
    simp [fetchAttempts, ha, hc, hi]
  · intro e e2 ha hc hi
    refine ⟨?_, ?_⟩ <;> simp [fetchAttempts, ha, hc, hi]

/-- Witness for claim C2 at a concrete attempt oracle: the strict
attempt raises a certificate-verification SSL error and the insecure
retry succeeds, so the fetch returns the retry response. -/
theorem fetch_retries_iff_certificate_error_witness :
    (fetchAttempts (fun m => match m with
      | .strict => .err ⟨true, false, "certificate verify failed"⟩
      | .insecure => .ok 200 [123])).1 = .ok (200, [123]) :=
  (fetch_retries_iff_certificate_error _).2.2.1
    ⟨true, false, "certificate verify failed"⟩ 200 [123] rfl rfl rfl

/-- Claim C4: after the attempts produce a transport-level response,
_fetch_url raises RuntimeError("HTTP status") for every status outside
[200, 300), raises RuntimeError("Empty response body") for every
in-range status with a zero-length body, and otherwise returns the raw
body bytes; consequently, when every attempt of both latest endpoints
yields HTTP 503, the error report details are exactly the two
endpoint-prefixed "HTTP 503" messages in trial order. -/
theorem fetch_http_and_empty_errors :
    (∀ attempt (s : Int) (p : List Nat), (fetchAttempts attempt).1 = .ok (s, p) →
      ¬(200 ≤ s ∧ s < 300) →
      fetchUrl attempt = .error (.runtime ("HTTP " ++ toString s))) ∧
    (∀ attempt (s : Int), (fetchAttempts attempt).1 = .ok (s, []) →
      200 ≤ s → s < 300 →
      fetchUrl attempt = .error (.runtime "Empty response body")) ∧
    (∀ attempt (s : Int) (p : List Nat), (fetchAttempts attempt).1 = .ok (s, p) →
      200 ≤ s → s < 300 → p ≠ [] → fetchUrl attempt = .ok p) ∧
    handleIceLatest (fun _ => fetchUrl (fun _ => .ok 503 [123])) =
      .errorReport "Unable to fetch NOAA data."
        (NOAA_LATEST_ENDPOINTS.map (fun ep => ep ++ ": HTTP 503")) := by
  refine ⟨?_, ?_, ?_, rfl⟩
  · intro attempt s p h hs
    simp [fetchUrl, h, hs]
  · intro attempt s h h1 h2
    simp [fetchUrl, h, h1, h2]
  · intro attempt s p h h1 h2 hp
    simp [fetchUrl, h, h1, h2, hp]

/-- Witness for claim C4 at a concrete attempt oracle: a 503 response
makes _fetch_url raise RuntimeError("HTTP 503"). -/
theorem fetch_http_and_empty_errors_witness :
    fetchUrl (fun _ => .ok 503 [123]) = .error (.runtime "HTTP 503") :=
  fetch_http_and_empty_errors.1 (fun _ => .ok 503 [123]) 503 [123] rfl (by decide)

/-- Claim C1: _handle_ice_latest tries the two candidate endpoints in
list order and returns the first successful payload verbatim; exactly
when both fail it responds with the error report whose error text is
"Unable to fetch NOAA data." and whose details are the two
"endpoint: message" entries in trial order. -/
theorem latest_first_success_else_report
    (fetch : String → Except FetchErr (List Nat)) (p : List Nat) (e1 e2 : FetchErr) :
    (fetch (NOAA_BASE_ENDPOINT ++ "&orderByMax(%22time%22)") = .ok p →
      handleIceLatest fetch = .ok p) ∧
    (fetch (NOAA_BASE_ENDPOINT ++ "&orderByMax(%22time%22)") = .error e1 →
      fetch NOAA_BASE_ENDPOINT = .ok p →
      handleIceLatest fetch = .ok p) ∧
    (fetch (NOAA_BASE_ENDPOINT ++ "&orderByMax(%22time%22)") = .error e1 →
      fetch NOAA_BASE_ENDPOINT = .error e2 →
      handleIceLatest fetch =
        .errorReport "Unable to fetch NOAA data."
          [NOAA_BASE_ENDPOINT ++ "&orderByMax(%22time%22)" ++ ": " ++ errText e1,
           NOAA_BASE_ENDPOINT ++ ": " ++ errText e2]) := by
  refine ⟨?_, ?_, ?_⟩
  · intro h1
    simp [handleIceLatest, NOAA_LATEST_ENDPOINTS, latestGo, h1]
  · intro h1 h2
    simp [handleIceLatest, NOAA_LATEST_ENDPOINTS, latestGo, h1, h2]
  · intro h1 h2
    simp [handleIceLatest, NOAA_LATEST_ENDPOINTS, latestGo, h1, h2]

/-- Witness for claim C1 at a concrete fetch oracle failing on both
endpoints. -/
theorem latest_first_success_else_report_witness :
    handleIceLatest (fun _ => .error (.runtime "timed out")) =
      .errorReport "Unable to fetch NOAA data."
        [NOAA_BASE_ENDPOINT ++ "&orderByMax(%22time%22)" ++ ": timed out",
         NOAA_BASE_ENDPOINT ++ ": timed out"] :=
  (latest_first_success_else_report (fun _ => .error (.runtime "timed out"))
    [] (.runtime "timed out") (.runtime "timed out")).2.2 rfl rfl

/-- The loop of _history_days_from_query agrees with the first-match
reading of the spec: the value decided by the first "days=" pair. -/
theorem daysLoop_eq_first (pyInt : String → Option Int) (l : List String) :
    daysLoop pyInt l =
      match l.findSome? (fun pair =>
          if leadsWith "days=".toList pair.toList then
            some ((⟨pair.toList.drop 5⟩ : String)) else none) with
      | none => 90
      | some v => (pyInt v).getD 90 := by
  induction l with
  | nil => rfl
  | cons a l ih =>
    by_cases h : leadsWith "days=".toList a.toList = true
    · simp only [daysLoop, List.findSome?, h, if_pos]
      cases pyInt ⟨a.toList.drop 5⟩ <;> rfl
    · simp only [daysLoop, List.findSome?, h, Bool.false_eq_true, ite_false] at ih ⊢
      exact ih

/-- A successful history response carries the day window the handler
computed. -/
theorem historyGo_success_days (env : HistoryEnv) (now days : Int) :
    ∀ (eps : List String) (r : HistoryResponse),
      historyGo env now days eps = .ok (.success r) → r.days = days := by
  intro eps
  induction eps with
  | nil => intro r h; simp [historyGo] at h
  | cons ep rest ih =>
    intro r h
    simp only [historyGo] at h
    cases h1 : historyStep env now days ep with
    | ok t =>
      rw [h1] at h
      simp only [Except.ok.injEq, HistoryOutcome.success.injEq] at h
      rw [← h]
    | error se =>
      cases se with
      | uncaught pe => rw [h1] at h; simp at h
      | caught msg =>
        rw [h1] at h
        cases h2 : historyGo env now days rest with
        | error pe => rw [h2] at h; simp at h
        | ok o =>
          cases o with
          | success r2 =>
            rw [h2] at h
            simp only [Except.ok.injEq, HistoryOutcome.success.injEq] at h
            rw [← h]
            exact ih r2 h2
          | errorReport er det => rw [h2] at h; simp at h

/-- Claim C3: the effective day window of a history request is the
clamp into [14, 365] of the first days= query parameter value, with 90
before clamping when the parameter is absent or unparsable (the
specEffectiveDays restatement of the spec wording); in particular
days=10 clamps to 14 and days=9999 to 365 under the host integer
parser, and the days field of a successful HistoryResponse equals the
post-clamp value. -/
theorem history_days_clamped (pyInt : String → Option Int) (path : String)
    (env : HistoryEnv) (now : Int) (r : HistoryResponse) :
    historyDaysFromQuery pyInt path = specEffectiveDays pyInt (queryOfPath path) ∧
    historyDaysFromQuery parseDecInt "/api/ice-history?days=10" = 14 ∧
    historyDaysFromQuery parseDecInt "/api/ice-history?days=9999" = 365 ∧
    (handleIceHistory env now path = .ok (.success r) →
      r.days = historyDaysFromQuery env.pyInt path) := by
  refine ⟨?_, by decide, by decide, ?_⟩
  · unfold historyDaysFromQuery specEffectiveDays
    rw [daysLoop_eq_first]
  · intro h
    exact historyGo_success_days env now (historyDaysFromQuery env.pyInt path) _ r h

/-- Concrete environment for the claim C3 witness: the first endpoint
serves a one-row table whose time parses to a far-future offset-aware
instant, so the history request succeeds. -/
def c3Env : HistoryEnv :=
  ⟨fun _ => .ok (.obj [("table", .obj
      [("columnNames", .arr [.str "time"]),
       ("rows", .arr [.arr [.str "t"]])])]),
   fun _ => some ⟨true, 100000000000⟩,
   fun _ => none,
   parseDecInt,
   fun _ => "",
   fun _ => ""⟩

/-- Witness for claim C3 at a concrete request: a successful history
response carries the post-clamp day window (here the default 90). -/
theorem history_days_clamped_witness :
    (⟨"", 90, [⟨"t", none, none, none, none, none, none⟩]⟩ : HistoryResponse).days =
      historyDaysFromQuery parseDecInt "/api/ice-history" :=
  (history_days_clamped parseDecInt "/api/ice-history" c3Env 0
    ⟨"", 90, [⟨"t", none, none, none, none, none, none⟩]⟩).2.2.2 rfl

/-- Claim C5: a retained record is projected to a HistoryPoint holding
exactly the seven fields time, Superior, Michigan, Huron, Erie,
Ontario, GL_Total whatever other columns the record carries, with time
the original text of the time field and each lake field coerced by
_to_float: numeric values (Python int, float and their subclass bool)
pass through, string values are parsed by the host float(), and every
other value becomes null without failing the rest of the point. -/
theorem history_point_exact_shape (fromISO : String → Option PyDatetime)
    (parseFloat : String → Option Rat) (now days : Int) (row : Record)
    (dt : PyDatetime) (hp : parseTime fromISO (timeTextOf row) = some dt)
    (ha : dt.aware = true) (hc : now - days * 86400 ≤ dt.instant) :
    trimHistoryRows fromISO parseFloat now days [row] =
      .ok [projectRow parseFloat row] ∧
    projectRow parseFloat row =
      ⟨timeTextOf row,
        toFloatGet parseFloat row "Superior",
        toFloatGet parseFloat row "Michigan",
        toFloatGet parseFloat row "Huron",
        toFloatGet parseFloat row "Erie",
        toFloatGet parseFloat row "Ontario",
        toFloatGet parseFloat row "GL_Total"⟩ ∧
    (∀ s, dictGet row (.str "time") = some (.str s) → timeTextOf row = s) ∧
    (∀ q, toFloat parseFloat (.num q) = some q) ∧
    (∀ b, toFloat parseFloat (.bool b) = some (if b then 1 else 0)) ∧
    (∀ s, toFloat parseFloat (.str s) = parseFloat s) ∧
    toFloat parseFloat .null = none ∧
    (∀ xs, toFloat parseFloat (.arr xs) = none) ∧
    (∀ fs, toFloat parseFloat (.obj fs) = none) := by
  refine ⟨?_, rfl, ?_, fun q => rfl, fun b => rfl, fun s => rfl, rfl,
    fun xs => rfl, fun fs => rfl⟩
  · simp [trimHistoryRows, trimGo, hp, ha, hc, Except.map]
  · intro s hs
    simp [timeTextOf, hs, pyStr]

/-- Witness for claim C5 at a concrete record carrying one extra
column, a string-valued lake field, a null lake field and a list
lake field. -/
theorem history_point_exact_shape_witness :
    trimHistoryRows (fun _ => some ⟨true, 0⟩)
      (fun s => if s = "3.5" then some (7 / 2) else none) 0 14
      [[(JVal.str "time", JVal.str "2024-01-15T00:00:00Z"),
        (JVal.str "Superior", JVal.num 12),
        (JVal.str "Michigan", JVal.str "3.5"),
        (JVal.str "Huron", JVal.null),
        (JVal.str "Erie", JVal.arr []),
        (JVal.str "extra", JVal.num 7)]] =
      .ok [⟨"2024-01-15T00:00:00Z", some 12, some (7 / 2), none, none, none, none⟩] :=
  (history_point_exact_shape (fun _ => some ⟨true, 0⟩)
    (fun s => if s = "3.5" then some (7 / 2) else none) 0 14
    [(JVal.str "time", JVal.str "2024-01-15T00:00:00Z"),
     (JVal.str "Superior", JVal.num 12),
     (JVal.str "Michigan", JVal.str "3.5"),
     (JVal.str "Huron", JVal.null),
     (JVal.str "Erie", JVal.arr []),
     (JVal.str "extra", JVal.num 7)]
    ⟨true, 0⟩ rfl rfl (by decide)).1

/-- Retention predicate of the history filter: the time text parses
and the parsed instant is at least the cutoff. -/
def keepRow (fromISO : String → Option PyDatetime) (cutoff : Int) (row : Record) : Bool :=
  match parseTime fromISO (timeTextOf row) with
  | some dt => decide (cutoff ≤ dt.instant)
  | none => false

/-- The trim loop is the stable filter-and-project of keepRow whenever
every parsed timestamp is offset-aware. -/
theorem trimGo_eq_filter_map (fromISO : String → Option PyDatetime)
    (parseFloat : String → Option Rat) (cutoff : Int) :
    ∀ rows : List Record,
      (∀ row ∈ rows, ∀ dt, parseTime fromISO (timeTextOf row) = some dt →
        dt.aware = true) →
      trimGo fromISO parseFloat cutoff rows =
        .ok (((rows.filter (keepRow fromISO cutoff)).map (projectRow parseFloat))) := by
  intro rows
  induction rows with
  | nil => intro _; rfl
  | cons row rest ih =>
    intro hnn
    have hrest := fun r hr => hnn r (List.mem_cons_of_mem row hr)
    cases hpt : parseTime fromISO (timeTextOf row) with
    | none =>
      have hkeep : keepRow fromISO cutoff row = false := by simp [keepRow, hpt]
      have h1 : trimGo fromISO parseFloat cutoff (row :: rest) =
          trimGo fromISO parseFloat cutoff rest := by simp [trimGo, hpt]
      rw [h1, ih hrest]
      simp [List.filter_cons, hkeep]
    | some dt =>
      have ha : dt.aware = true := hnn row (List.mem_cons_self row rest) dt hpt
      have hkeep : keepRow fromISO cutoff row = decide (cutoff ≤ dt.instant) := by
        simp [keepRow, hpt]
      by_cases hcut : cutoff ≤ dt.instant
      · have h1 : trimGo fromISO parseFloat cutoff (row :: rest) =
            (trimGo fromISO parseFloat cutoff rest).map
              (fun tl => projectRow parseFloat row :: tl) := by
          simp [trimGo, hpt, ha, hcut]
        rw [h1, ih hrest]
        simp [List.filter_cons, hkeep, hcut, Except.map]
      · have h1 : trimGo fromISO parseFloat cutoff (row :: rest) =
            trimGo fromISO parseFloat cutoff rest := by
          simp [trimGo, hpt, ha, hcut]
        rw [h1, ih hrest]
        simp [List.filter_cons, hkeep, hcut]

/-- Claim C6 as amended: whenever every record whose time parses
yields an offset-aware timestamp, _trim_history_rows retains a record
exactly when that timestamp is at least now minus the day window
(inclusive lower bound, no upper bound) and outputs the retained
records in input order with no re-sorting; a record parsing to an
offset-naive timestamp instead makes the comparison with the aware
cutoff raise TypeError. -/
theorem trim_retains_iff_in_window (fromISO : String → Option PyDatetime)
    (parseFloat : String → Option Rat) (now days : Int) (rows : List Record)
    (hnn : ∀ row ∈ rows, ∀ dt, parseTime fromISO (timeTextOf row) = some dt →
      dt.aware = true) :
    trimHistoryRows fromISO parseFloat now days rows =
      .ok (((rows.filter (keepRow fromISO (now - days * 86400))).map
        (projectRow parseFloat))) := by
  cases rows with
  | nil => rfl
  | cons row rest =>
    unfold trimHistoryRows
    rw [if_neg (by simp)]
    exact trimGo_eq_filter_map fromISO parseFloat (now - days * 86400) (row :: rest) hnn

/-- Witness for claim C6 at a concrete record list: the first and
third records parse to aware instants on either side of the cutoff,
the second does not parse; only the first survives, in order. -/
theorem trim_retains_iff_in_window_witness :
    trimHistoryRows
      (fun s => if s = "a" then some ⟨true, 0⟩
        else if s = "c" then some ⟨true, -2000000⟩ else none)
      (fun _ => none) 0 14
      [[(JVal.str "time", JVal.str "a")],
       [(JVal.str "time", JVal.str "b")],
       [(JVal.str "time", JVal.str "c")]] =
      .ok [⟨"a", none, none, none, none, none, none⟩] :=
  trim_retains_iff_in_window
    (fun s => if s = "a" then some ⟨true, 0⟩
      else if s = "c" then some ⟨true, -2000000⟩ else none)
    (fun _ => none) 0 14
    [[(JVal.str "time", JVal.str "a")],
     [(JVal.str "time", JVal.str "b")],
     [(JVal.str "time", JVal.str "c")]]
    (by
      intro row hr dt h
      simp only [List.mem_cons, List.not_mem_nil, or_false] at hr
      rcases hr with rfl | rfl | rfl <;>
        first
          | (injection h with h2; rw [← h2])
          | exact Option.noConfusion h)

/-- Counterexample for claim C6 as stated: a record whose time parses
to an offset-naive datetime (here the ISO text carries no offset, as
datetime.fromisoformat then returns a naive value) does not get
filtered at all - the comparison with the offset-aware cutoff raises
TypeError instead of retaining or dropping the record. -/
theorem trim_naive_timestamp_raises :
    trimHistoryRows
      (fun s => if s = "2024-01-15T00:00:00" then some ⟨false, 1705276800⟩ else none)
      (fun _ => none) 1705276800 14
      [[(JVal.str "time", JVal.str "2024-01-15T00:00:00")]] =
      .error .typeError := rfl

/-- An exception escapes the history endpoint loop only when some
tried endpoint raised an exception kind absent from the except tuple. -/
theorem historyGo_error_source (env : HistoryEnv) (now days : Int) :
    ∀ (eps : List String) (pe : PyError),
      historyGo env now days eps = .error pe →
      ∃ ep ∈ eps, historyStep env now days ep = .error (.uncaught pe) := by
  intro eps
  induction eps with
  | nil => intro pe h; simp [historyGo] at h
  | cons ep rest ih =>
    intro pe h
    simp only [historyGo] at h
    cases h1 : historyStep env now days ep with
    | ok t => rw [h1] at h; simp at h
    | error se =>
      cases se with
      | uncaught pe2 =>
        rw [h1] at h
        simp only [Except.error.injEq] at h
        exact ⟨ep, List.mem_cons_self ep rest, by rw [h1, h]⟩
      | caught msg =>
        rw [h1] at h
        cases h2 : historyGo env now days rest with
        | error pe2 =>
          rw [h2] at h
          simp only [Except.error.injEq] at h
          obtain ⟨ep2, hmem, hstep⟩ := ih pe2 h2
          exact ⟨ep2, List.mem_cons_of_mem ep hmem, by rw [hstep, h]⟩
        | ok o =>
          rw [h2] at h
          cases o <;> simp at h

/-- Claim C7 as amended: a record whose time text fails ISO parsing is
silently dropped and the filter continues with the remaining records;
the first endpoint whose step succeeds ends the loop with its rows,
every caught fetch/decode/filter failure is turned into an
"endpoint: message" detail entry in trial order (both-fail case shown
in full), and an exception escapes _handle_ice_history only when the
fetch, decode or filter of some tried endpoint raised an exception
kind outside the except tuple (the UnicodeDecodeError of a non-UTF-8
body, the AttributeError of a non-object top-level payload, or the
TypeError of an offset-naive timestamp comparison). -/
theorem unparsable_time_dropped_failures_aggregated :
    (∀ (fromISO : String → Option PyDatetime) (parseFloat : String → Option Rat)
        (cutoff : Int) (row : Record) (rest : List Record),
      parseTime fromISO (timeTextOf row) = none →
      trimGo fromISO parseFloat cutoff (row :: rest) =
        trimGo fromISO parseFloat cutoff rest) ∧
    (∀ (env : HistoryEnv) (now : Int) (path : String) (pe : PyError),
      handleIceHistory env now path = .error pe →
      ∃ ep ∈ [historyEndpoint env.fmtDay now (historyDaysFromQuery env.pyInt path),
              NOAA_BASE_ENDPOINT],
        historyStep env now (historyDaysFromQuery env.pyInt path) ep =
          .error (.uncaught pe)) ∧
    (∀ (env : HistoryEnv) (now : Int) (path : String) (t : List HistoryPoint),
      historyStep env now (historyDaysFromQuery env.pyInt path)
          (historyEndpoint env.fmtDay now (historyDaysFromQuery env.pyInt path)) =
        .ok t →
      handleIceHistory env now path =
        .ok (.success ⟨env.fmtNow now, historyDaysFromQuery env.pyInt path, t⟩)) ∧
    (∀ (env : HistoryEnv) (now : Int) (path : String) (m1 : String)
        (t : List HistoryPoint),
      historyStep env now (historyDaysFromQuery env.pyInt path)
          (historyEndpoint env.fmtDay now (historyDaysFromQuery env.pyInt path)) =
        .error (.caught m1) →
      historyStep env now (historyDaysFromQuery env.pyInt path) NOAA_BASE_ENDPOINT =
        .ok t →
      handleIceHistory env now path =
        .ok (.success ⟨env.fmtNow now, historyDaysFromQuery env.pyInt path, t⟩)) ∧
    (∀ (env : HistoryEnv) (now : Int) (path : String) (m1 m2 : String),
      historyStep env now (historyDaysFromQuery env.pyInt path)
          (historyEndpoint env.fmtDay now (historyDaysFromQuery env.pyInt path)) =
        .error (.caught m1) →
      historyStep env now (historyDaysFromQuery env.pyInt path) NOAA_BASE_ENDPOINT =
        .error (.caught m2) →
      handleIceHistory env now path =
        .ok (.errorReport "Unable to fetch NOAA data."
          [historyEndpoint env.fmtDay now (historyDaysFromQuery env.pyInt path)
             ++ ": " ++ m1,
           NOAA_BASE_ENDPOINT ++ ": " ++ m2])) := by
  refine ⟨?_, ?_, ?_, ?_, ?_⟩
  · intro fromISO parseFloat cutoff row rest hpt
    simp [trimGo, hpt]
  · intro env now path pe h
    exact historyGo_error_source env now (historyDaysFromQuery env.pyInt path) _ pe h
  · intro env now path t h1
    simp [handleIceHistory, historyGo, h1]
  · intro env now path m1 t h1 h2
    simp [handleIceHistory, historyGo, h1, h2]
  · intro env now path m1 m2 h1 h2
    simp [handleIceHistory, historyGo, h1, h2]

/-- Concrete environment for the claim C7 witness: every fetch fails
with a caught HTTP 503 RuntimeError. -/
def c7Env : HistoryEnv :=
  ⟨fun _ => .error (.caught "HTTP 503"), fun _ => none, fun _ => none,
   fun _ => none, fun _ => "", fun _ => ""⟩

/-- Witness for claim C7: a concrete record with unparsable time is
dropped and the filter continues to accept the next record; and when
both history endpoints fail with caught HTTP 503 errors, the handler
responds with the aggregated report holding one detail per endpoint
in trial order. -/
theorem unparsable_time_dropped_failures_aggregated_witness :
    trimGo (fun s => if s = "good" then some ⟨true, 50⟩ else none) (fun _ => none) 0
      [[(JVal.str "time", JVal.str "not-a-date")],
       [(JVal.str "time", JVal.str "good")]] =
      Except.ok [⟨"good", none, none, none, none, none, none⟩] ∧
    handleIceHistory c7Env 0 "/api/ice-history" =
      .ok (.errorReport "Unable to fetch NOAA data."
        [historyEndpoint (fun _ => "") 0 90 ++ ": HTTP 503",
         NOAA_BASE_ENDPOINT ++ ": HTTP 503"]) :=
  ⟨(unparsable_time_dropped_failures_aggregated.1
      (fun s => if s = "good" then some ⟨true, 50⟩ else none) (fun _ => none) 0
      [(JVal.str "time", JVal.str "not-a-date")]
      [[(JVal.str "time", JVal.str "good")]] rfl).trans rfl,
   unparsable_time_dropped_failures_aggregated.2.2.2.2 c7Env 0 "/api/ice-history"
     "HTTP 503" "HTTP 503" rfl rfl⟩

/-- Counterexample for claim C7 as stated: when the upstream body is
the valid JSON text "[]", json.loads yields a list, payload.get in
_extract_rows raises AttributeError, and that decode failure is in no
except tuple - it escapes _handle_ice_history instead of becoming a
detail entry. -/
theorem history_decode_failure_escapes :
    handleIceHistory
      ⟨fun _ => .ok (.arr []), fun _ => none, fun _ => none, fun _ => none,
       fun _ => "", fun _ => ""⟩ 0 "/api/ice-history" =
      .error .attributeError := rfl

/-- Unfolding equation of _extract_rows on an object payload. -/
theorem extractRows_obj (fields : List (String × JVal)) :
    extractRows (.obj fields) =
      match jsonGet fields "table" with
      | some (.obj tfields) =>
        match jsonGet tfields "columnNames", jsonGet tfields "rows" with
        | some (.arr columnNames), some (.arr rows) => extractGo columnNames rows
        | _, _ => .ok []
      | _ => .ok [] := rfl

/-- Claim C8 as amended: for every JSON payload whose top-level value
is an object that lacks a table entry (or whose table entry is not an
object), or whose table.columnNames is not a list, or whose table.rows
is not a list, _extract_rows returns the empty record sequence without
raising; a payload whose top-level value is not an object instead
raises AttributeError at payload.get. -/
theorem extract_malformed_envelope_empty (fields : List (String × JVal)) :
    ((∀ tf, jsonGet fields "table" ≠ some (.obj tf)) →
      extractRows (.obj fields) = .ok []) ∧
    (∀ tfields, jsonGet fields "table" = some (.obj tfields) →
      ((∀ cs, jsonGet tfields "columnNames" ≠ some (.arr cs)) ∨
       (∀ rs, jsonGet tfields "rows" ≠ some (.arr rs))) →
      extractRows (.obj fields) = .ok []) := by
  constructor
  · intro h
    cases hv : jsonGet fields "table" with
    | none => simp [extractRows_obj, hv]
    | some v =>
      cases v with
      | obj tf => exact absurd hv (h tf)
      | null => simp [extractRows_obj, hv]
      | bool b => simp [extractRows_obj, hv]
      | num q => simp [extractRows_obj, hv]
      | str s => simp [extractRows_obj, hv]
      | arr xs => simp [extractRows_obj, hv]
  · intro tfields htv hdisj
    cases hcn : jsonGet tfields "columnNames" with
    | none => simp [extractRows_obj, htv, hcn]
    | some cv =>
      cases hrs : jsonGet tfields "rows" with
      | none => cases cv <;> simp [extractRows_obj, htv, hcn, hrs]
      | some rv =>
        cases cv with
        | arr cn =>
          cases rv with
          | arr rs =>
            rcases hdisj with hc | hr
            · exact absurd hcn (hc cn)
            · exact absurd hrs (hr rs)
          | null => simp [extractRows_obj, htv, hcn, hrs]
          | bool b => simp [extractRows_obj, htv, hcn, hrs]
          | num q => simp [extractRows_obj, htv, hcn, hrs]
          | str s => simp [extractRows_obj, htv, hcn, hrs]
          | obj fs => simp [extractRows_obj, htv, hcn, hrs]
        | null => simp [extractRows_obj, htv, hcn, hrs]
        | bool b => simp [extractRows_obj, htv, hcn, hrs]
        | num q => simp [extractRows_obj, htv, hcn, hrs]
        | str s => simp [extractRows_obj, htv, hcn, hrs]
        | obj fs => simp [extractRows_obj, htv, hcn, hrs]

/-- Witness for claim C8 at concrete malformed envelopes: a top-level
object with no table entry, and one whose columnNames is a string,
both decode to the empty sequence. -/
theorem extract_malformed_envelope_empty_witness :
    extractRows (.obj [("other", JVal.num 1)]) = .ok [] ∧
    extractRows (.obj [("table", .obj
      [("columnNames", JVal.str "oops"), ("rows", JVal.arr [])])]) = .ok [] :=
  ⟨(extract_malformed_envelope_empty [("other", JVal.num 1)]).1
      (fun _ h => Option.noConfusion h),
   (extract_malformed_envelope_empty
      [("table", .obj [("columnNames", JVal.str "oops"), ("rows", JVal.arr [])])]).2
      [("columnNames", JVal.str "oops"), ("rows", JVal.arr [])] rfl
      (Or.inl (fun _ h => Option.noConfusion h (fun h2 => JVal.noConfusion h2)))⟩

/-- Counterexample for claim C8 as stated: the JSON payload whose
top-level value is the empty array lacks a table object, yet the
decoder raises AttributeError (a Python list has no get attribute)
instead of returning the empty sequence. -/
theorem extract_nonobject_payload_raises :
    extractRows (.arr []) = .error .attributeError := rfl

/-- The index-guarded comprehension loop equals a fold over the
positional zip of column names with the present row values. -/
theorem rowDictGo_zip (rawRow : List JVal) :
    ∀ (n : Nat) (cns : List JVal) (acc : Record),
      (∀ p ∈ cns.zip (rawRow.drop n), hashableKey p.1 = true) →
      rowDictGo rawRow (List.enumFrom n cns) acc =
        .ok ((cns.zip (rawRow.drop n)).foldl (fun d p => dictInsert d p.1 p.2) acc) := by
  intro n cns
  induction cns generalizing n with
  | nil => intro acc _; rfl
  | cons c cns ih =>
    intro acc hh
    by_cases h : n < rawRow.length
    · have hdrop : rawRow.drop n = rawRow.get ⟨n, h⟩ :: rawRow.drop (n + 1) :=
        List.drop_eq_get_cons h
      have hc : hashableKey c = true := by
        apply hh (c, rawRow.get ⟨n, h⟩)
        rw [hdrop, List.zip_cons_cons]
        exact List.mem_cons_self _ _
      have hh2 : ∀ p ∈ cns.zip (rawRow.drop (n + 1)), hashableKey p.1 = true := by
        intro p hp
        apply hh p
        rw [hdrop, List.zip_cons_cons]
        exact List.mem_cons_of_mem _ hp
      simp only [List.enumFrom, rowDictGo, h, dif_pos, hc, if_pos]
      rw [ih (n + 1) (dictInsert acc c (rawRow.get ⟨n, h⟩)) hh2, hdrop,
        List.zip_cons_cons, List.foldl_cons]
    · have hdrop : rawRow.drop n = [] :=
        List.drop_eq_nil_of_le (Nat.le_of_not_lt h)
      have hdrop2 : rawRow.drop (n + 1) = [] :=
        List.drop_eq_nil_of_le (Nat.le_succ_of_le (Nat.le_of_not_lt h))
      have hh2 : ∀ p ∈ cns.zip (rawRow.drop (n + 1)), hashableKey p.1 = true := by
        rw [hdrop2]; intro p hp; simp at hp
      simp only [List.enumFrom, rowDictGo, h, dif_neg, not_false_iff]
      rw [ih (n + 1) acc hh2, hdrop, hdrop2]
      simp

/-- Claim C9: for every row array, in particular one shorter than
columnNames, the decoded Record is built (without error) from exactly
the positional pairs whose value is present in that row - the zip of
columnNames with the row truncates at the shorter side, so trailing
columns are simply absent - and row entries that are not lists are
skipped rather than failing decoding. The hypothesis that the paired
column names are strings is the TabularEnvelope data-model invariant
(columnNames is a sequence of strings). -/
theorem short_row_record_fields (columnNames rawRow : List JVal)
    (hstr : ∀ p ∈ columnNames.zip rawRow, ∃ s, p.1 = JVal.str s) :
    rowDict columnNames rawRow =
      .ok ((columnNames.zip rawRow).foldl (fun d p => dictInsert d p.1 p.2) []) ∧
    (∀ v rest, (∀ xs, v ≠ JVal.arr xs) →
      extractGo columnNames (v :: rest) = extractGo columnNames rest) := by
  constructor
  · have hh : ∀ p ∈ columnNames.zip (rawRow.drop 0), hashableKey p.1 = true := by
      intro p hp
      obtain ⟨s, hs⟩ := hstr p (by simpa using hp)
      rw [hs]; rfl
    have h0 := rowDictGo_zip rawRow 0 columnNames [] hh
    simpa [rowDict, List.enum] using h0
  · intro v rest hv
    cases v with
    | arr xs => exact absurd rfl (hv xs)
    | null => rfl
    | bool b => rfl
    | num q => rfl
    | str s => rfl
    | obj fs => rfl

/-- Witness for claim C9 at a concrete row [x] shorter than the three
column names: the record holds only the first field, and a non-list
row entry is skipped. -/
theorem short_row_record_fields_witness :
    rowDict [JVal.str "time", JVal.str "Superior", JVal.str "Michigan"]
      [JVal.str "x"] = .ok [(JVal.str "time", JVal.str "x")] :=
  (short_row_record_fields
    [JVal.str "time", JVal.str "Superior", JVal.str "Michigan"] [JVal.str "x"]
    (by
      intro p hp
      simp only [List.zip, List.zipWith, List.mem_singleton] at hp
      subst hp
      exact ⟨"time", rfl⟩)).1

/-- One-row table payload used to exhibit the clock dependence of the
decode-and-trim pipeline. -/
def clockPayload : JVal :=
  .obj [("table", .obj
    [("columnNames", .arr [.str "time"]),
     ("rows", .arr [.arr [.str "2000-01-02T00:00:00Z"]])])]

/-- ISO parser instance for the clock-dependence example: the sole
time text of clockPayload (with its Z already replaced by +00:00)
parses to the aware instant 100. -/
def clockISO : String → Option PyDatetime :=
  fun s => if s = "2000-01-02T00:00:00+00:00" then some ⟨true, 100⟩ else none

/-- Counterexample for claim C10 as stated: _trim_history_rows reads
datetime.now inside, so decoding and filtering the same payload with
the same days at two different wall-clock instants yields different
row sequences - the record is inside the 14-day window at the first
instant and outside it at the second. -/
theorem decode_trim_clock_dependent :
    decodeAndTrim clockISO (fun _ => none) clockPayload 14 100 ≠
      decodeAndTrim clockISO (fun _ => none) clockPayload 14 2000000 := by
  have h1 : decodeAndTrim clockISO (fun _ => none) clockPayload 14 100 =
      .ok [⟨"2000-01-02T00:00:00Z", none, none, none, none, none, none⟩] := rfl
  have h2 : decodeAndTrim clockISO (fun _ => none) clockPayload 14 2000000 =
      .ok [] := rfl
  rw [h1, h2]
  simp

/-- Claim C10 as amended: decoding plus history-filtering is a pure
function of the payload, the day window and the clock reading, and
depends on the latter two only through the cutoff instant now minus
days; in particular two applications to the same bytes with the same
days at the same instant yield identical row sequences. -/
theorem decode_trim_pure_given_clock (fromISO : String → Option PyDatetime)
    (parseFloat : String → Option Rat) (payload : JVal)
    (days1 now1 days2 now2 : Int)
    (h : now1 - days1 * 86400 = now2 - days2 * 86400) :
    decodeAndTrim fromISO parseFloat payload days1 now1 =
      decodeAndTrim fromISO parseFloat payload days2 now2 := by
  simp only [decodeAndTrim, trimHistoryRows, h]

/-- Witness for claim C10: a 14-day window evaluated at instant
14 * 86400 has the same cutoff as a 0-day window at instant 0, so the
pipeline gives identical results. -/
theorem decode_trim_pure_given_clock_witness :
    decodeAndTrim clockISO (fun _ => none) clockPayload 14 (14 * 86400) =
      decodeAndTrim clockISO (fun _ => none) clockPayload 0 0 :=
  decode_trim_pure_given_clock clockISO (fun _ => none) clockPayload
    14 (14 * 86400) 0 0 (by decide)
